import Mathlib

/-!
# Verification of the jobymatch unified job scraper

Shallow embedding of `src/mixed_scraper.py` (class `UnifiedJobScraper`).
Python dictionaries become structures with optional fields (a missing key is
`none`), Python floats become `ℚ`, and the network/HTML side effects become
explicit inputs: a parser receives the results of its BeautifulSoup queries,
and the international scraper receives the outcome (`Except`) of each
`scrape_jobs` call.  All definitions are executable.
-/

namespace JobyMatch

/-! ## Python string primitives

Modelled on `List Char` so that every operation reduces by structural
recursion (`String.data` is the underlying character list). -/

/-- Characters of `s.split()` splitting: accumulate the current word (reversed)
and flush it at every whitespace run, dropping empty words — the semantics of
Python `str.split()` with no argument. -/
def pySplitChars : List Char → List Char → List String
  | [], cur => if cur.isEmpty then [] else [String.mk cur.reverse]
  | c :: cs, cur =>
    if c.isWhitespace then
      (if cur.isEmpty then [] else [String.mk cur.reverse]) ++ pySplitChars cs []
    else pySplitChars cs (c :: cur)

/-- Python `s.split()`: whitespace-separated words, empties dropped. -/
def pySplit (s : String) : List String := pySplitChars s.data []

/-- Python `s.lower()` (ASCII case folding, as exercised by the scraper). -/
def pyLower (s : String) : String := String.mk (s.data.map Char.toLower)

/-- Does the second list start with the first one? -/
def charsStart : List Char → List Char → Bool
  | [], _ => true
  | _ :: _, [] => false
  | a :: as, b :: bs => a == b && charsStart as bs

/-- Does the haystack contain the needle as a contiguous run? -/
def charsContain (needle : List Char) : List Char → Bool
  | [] => needle.isEmpty
  | h :: t => charsStart needle (h :: t) || charsContain needle t

/-- Python `needle in haystack` on strings (substring test; an empty needle
always succeeds, as in Python). -/
def pyIn (needle haystack : String) : Bool := charsContain needle.data haystack.data

/-- Python `s.strip()`: drop leading and trailing whitespace. -/
def pyStrip (s : String) : String :=
  String.mk (((s.data.dropWhile Char.isWhitespace).reverse.dropWhile Char.isWhitespace).reverse)

/-- Python `s[:n]` on a string: first `n` characters. -/
def pyTake (s : String) (n : ℕ) : String := String.mk (s.data.take n)

/-! ## Data model

A scraped job is a Python dict whose string fields are filled with defaults
(`job.get(k, '')`-style access never fails), so they are plain `String`s here;
`match_score` is absent until `scrape_and_match` assigns it. -/

/-- One job posting dictionary as built by the collectors. -/
structure Job where
  title : String := ""
  company : String := ""
  location : String := ""
  description : String := ""
  url : String := ""
  site : String := ""
  date_posted : String := ""
  is_remote : Bool := false
  match_score : Option ℚ := none
deriving DecidableEq

/-- The `skills` sub-dictionary of the parsed CV. -/
structure SkillsDict where
  technical : Option (List String) := none
deriving DecidableEq

/-- The `job_search_intent` sub-dictionary of the parsed CV. -/
structure JobSearchIntent where
  domains : Option (List String) := none
  location_preference : Option String := none
deriving DecidableEq

/-- The parsed CV profile (`cv_data`); `none` models a missing key. -/
structure CvData where
  title : Option String := none
  skills : Option SkillsDict := none
  job_search_intent : Option JobSearchIntent := none
deriving DecidableEq

/-- The keywords dictionary built by `extract_search_keywords`. -/
structure Keywords where
  title : String := ""
  domains : List String := []
  skills : List String := []
  location : String := ""
deriving DecidableEq

/-- `UnifiedJobScraper.extract_search_keywords` (mixed_scraper.py:86-103). -/
def extract_search_keywords (cv_data : CvData) : Keywords :=
  { title := cv_data.title.getD ""
    domains := match cv_data.job_search_intent with
      | some intent => intent.domains.getD []
      | none => []
    location := match cv_data.job_search_intent with
      | some intent => intent.location_preference.getD ""
      | none => ""
    skills := match cv_data.skills with
      | some skills => match skills.technical with
        | some technical => technical.take 10
        | none => []
      | none => [] }

/-- `UnifiedJobScraper.build_search_term` (mixed_scraper.py:105-117).
`(pySplit domain).head?` models `domain.split()[0]`: `none` is the
`IndexError` Python would raise on a whitespace-only domain. -/
def build_search_term (keywords : Keywords) : Option String :=
  if keywords.title != "" && decide ((pySplit keywords.title).length ≤ 4) then
    some keywords.title
  else if keywords.domains != [] && keywords.domains.headD "" != "" then
    let domain := keywords.domains.headD ""
    if domain != "" then (pySplit domain).head? else some "informatique"
  else if keywords.skills != [] then
    some (keywords.skills.headD "")
  else
    some "informatique"

/-! ## Match scoring (`UnifiedJobScraper.calculate_match_score`, lines 441-492)

The Python function accumulates `score += delta` over five independent blocks;
each block is translated as one signal function and the final score is the
capped sum. -/

/-- `job_text = f"{job.get('title', '')} {job.get('description', '')}".lower()`. -/
def jobText (job : Job) : String := pyLower (job.title ++ " " ++ job.description)

/-- Lines 447-448: `if job.get('title'): score += 10`. -/
def presenceSignal (job : Job) : ℚ :=
  if job.title != "" then 10 else 0

/-- Lines 450-461: domain-keyword signal, max 30. -/
def domainSignal (job : Job) (cv_data : CvData) : ℚ :=
  match cv_data.job_search_intent with
  | none => 0
  | some intent =>
    match intent.domains with
    | none => 0
    | some domains =>
      if domains != [] then
        let domain_keywords :=
          (domains.map (fun domain =>
            ((pySplit domain).filter (fun w => decide (4 < w.length))).map pyLower)).flatten
        if domain_keywords != [] then
          let matching := (domain_keywords.filter (fun kw => pyIn kw (jobText job))).length
          ((matching : ℚ) / (domain_keywords.length : ℚ)) * 30
        else 0
      else 0

/-- Lines 468-475, the per-skill increment: `+1` whole-phrase match,
else `+0.5` if any word of the skill longer than 3 characters appears. -/
def skillPoints (job_text : String) (skill : String) : ℚ :=
  let skill_lower := pyLower skill
  if pyIn skill_lower job_text then 1
  else
    let skill_words := pySplit skill_lower
    if skill_words.any (fun word => decide (3 < word.length) && pyIn word job_text) then 1 / 2
    else 0

/-- Lines 463-477: skill-overlap signal over the first 20 technical skills,
max 35. -/
def skillSignal (job : Job) (cv_data : CvData) : ℚ :=
  match cv_data.skills with
  | none => 0
  | some skillsDict =>
    match skillsDict.technical with
    | none => 0
    | some technical =>
      let skills := technical.take 20
      if skills != [] then
        let matching_skills :=
          skills.foldl (fun acc skill => acc + skillPoints (jobText job) skill) 0
        (matching_skills / (skills.length : ℚ)) * 35
      else 0

/-- Lines 479-481: `+15` when the location mentions `tunis` or the job is
remote. -/
def locationSignal (job : Job) : ℚ :=
  if pyIn "tunis" (pyLower job.location) || job.is_remote then 15 else 0

/-- Lines 483-490: title-overlap signal, max 10. -/
def titleSignal (job : Job) (cv_data : CvData) : ℚ :=
  let cv_title := pyLower (cv_data.title.getD "")
  let job_title := pyLower job.title
  if cv_title != "" && job_title != "" then
    let title_words := (pySplit cv_title).filter (fun w => decide (3 < w.length))
    if title_words != [] then
      let matching := (title_words.filter (fun w => pyIn w job_title)).length
      ((matching : ℚ) / (title_words.length : ℚ)) * 10
    else 0
  else 0

/-- `UnifiedJobScraper.calculate_match_score` (lines 441-492): the five
accumulated increments, capped at 100. -/
def calculate_match_score (job : Job) (cv_data : CvData) : ℚ :=
  min (presenceSignal job + domainSignal job cv_data + skillSignal job cv_data +
    locationSignal job + titleSignal job cv_data) 100

/-! ### Signal bounds -/

lemma presenceSignal_nonneg (job : Job) : 0 ≤ presenceSignal job := by
  rw [presenceSignal]; split <;> norm_num

lemma domainSignal_nonneg (job : Job) (cv : CvData) : 0 ≤ domainSignal job cv := by
  unfold domainSignal
  split
  · norm_num
  · split
    · norm_num
    · dsimp only
      split
      · split
        · positivity
        · norm_num
      · norm_num

lemma skillPoints_nonneg (t s : String) : 0 ≤ skillPoints t s := by
  rw [skillPoints]
  dsimp only
  split
  · norm_num
  · split <;> norm_num

lemma skillFold_nonneg (t : String) (l : List String) (acc : ℚ) (h : 0 ≤ acc) :
    0 ≤ l.foldl (fun acc skill => acc + skillPoints t skill) acc := by
  induction l generalizing acc with
  | nil => exact h
  | cons s rest ih =>
    exact ih _ (add_nonneg h (skillPoints_nonneg t s))

lemma skillSignal_nonneg (job : Job) (cv : CvData) : 0 ≤ skillSignal job cv := by
  unfold skillSignal
  split
  · norm_num
  · split
    · norm_num
    · dsimp only
      split
      · exact mul_nonneg
          (div_nonneg (skillFold_nonneg _ _ _ le_rfl) (Nat.cast_nonneg _)) (by norm_num)
      · norm_num

lemma locationSignal_nonneg (job : Job) : 0 ≤ locationSignal job := by
  rw [locationSignal]; split <;> norm_num

lemma titleSignal_nonneg (job : Job) (cv : CvData) : 0 ≤ titleSignal job cv := by
  rw [titleSignal]
  dsimp only
  split
  · split
    · positivity
    · norm_num
  · norm_num

/-- C1: for every job posting dictionary and every candidate profile
dictionary, `calculate_match_score` returns a value that is at least 0 and at
most 100. -/
theorem calculate_match_score_bounds (job : Job) (cv_data : CvData) :
    0 ≤ calculate_match_score job cv_data ∧ calculate_match_score job cv_data ≤ 100 := by
  constructor
  · exact le_min
      (by
        have h1 := presenceSignal_nonneg job
        have h2 := domainSignal_nonneg job cv_data
        have h3 := skillSignal_nonneg job cv_data
        have h4 := locationSignal_nonneg job
        have h5 := titleSignal_nonneg job cv_data
        linarith)
      (by norm_num)
  · exact min_le_right _ _

/-! ## Rounding

Python's builtin `round(x, 2)` rounds to the nearest multiple of `1/100`,
ties to the even hundredth (banker's rounding). -/

/-- Round to the nearest integer, ties to even (Python `round(x)`). -/
def pyRoundInt (x : ℚ) : ℤ :=
  if x - ⌊x⌋ = 1 / 2 then (if 2 ∣ ⌊x⌋ then ⌊x⌋ else ⌊x⌋ + 1) else round x

/-- Python `round(x, 2)`. -/
def pyRound2 (x : ℚ) : ℚ := (pyRoundInt (x * 100) : ℚ) / 100

lemma pyRoundInt_ge (x : ℚ) : x - 1 / 2 ≤ (pyRoundInt x : ℚ) := by
  rw [pyRoundInt]
  split
  · rename_i h
    have hx : (⌊x⌋ : ℚ) = x - 1 / 2 := by linarith
    split
    · rw [hx]
    · push_cast
      rw [hx]
      linarith
  · have habs := abs_sub_round x
    rw [abs_le] at habs
    linarith [habs.1]

lemma pyRound2_ge (x : ℚ) : x - 1 / 200 ≤ pyRound2 x := by
  rw [pyRound2]
  have h := pyRoundInt_ge (x * 100)
  linarith

/-! ## The pure tail of `scrape_and_match` (mixed_scraper.py:498-598)

The collection phase (Selenium/JobSpy I/O) produces `all_jobs`; everything
from line 562 on is a pure computation over that list, modelled here.  It
scores each job against the profile, keeps those whose *unrounded* score
reaches `min_score` while storing the score rounded to two decimals, sorts by
the stored score descending (Python's `list.sort` is stable; the insertion
sort below computes exactly the unique stable descending permutation),
deduplicates on the lower-cased (title, company) key keeping first
occurrences, and truncates. -/

/-- Lines 574-579: score, filter on the raw score, store the rounded score. -/
def matchedJobs (cv_data : CvData) (all_jobs : List Job) (min_score : ℚ) : List Job :=
  all_jobs.filterMap (fun job =>
    let score := calculate_match_score job cv_data
    if min_score ≤ score then some { job with match_score := some (pyRound2 score) }
    else none)

/-- The sort key of line 582: `lambda x: x['match_score']`. -/
def sortKey (job : Job) : ℚ := job.match_score.getD 0

/-- Insert into a descending-sorted list, after every earlier element of equal
key (the placement a stable descending sort gives). -/
def insertDesc (x : Job) : List Job → List Job
  | [] => [x]
  | a :: rest => if sortKey a ≤ sortKey x then x :: a :: rest else a :: insertDesc x rest

/-- Line 582: `matched_jobs.sort(key=lambda x: x['match_score'], reverse=True)`,
a stable descending sort. -/
def pySortDesc (l : List Job) : List Job := l.foldr insertDesc []

/-- The deduplication key of lines 588-591. -/
def dedupKey (job : Job) : String × String := (pyLower job.title, pyLower job.company)

/-- Lines 585-594: keep the first job carrying each not-yet-seen key. -/
def dedupGo : List Job → List (String × String) → List Job
  | [], _ => []
  | job :: rest, seen =>
    let key := dedupKey job
    if key ∈ seen then dedupGo rest seen
    else job :: dedupGo rest (key :: seen)

/-- Lines 562-598 of `UnifiedJobScraper.scrape_and_match`: the ranking
pipeline applied to the collected jobs. -/
def scrape_and_match (cv_data : CvData) (all_jobs : List Job) (min_score : ℚ)
    (max_results : ℕ) : List Job :=
  if all_jobs = [] then []
  else
    let matched_jobs := matchedJobs cv_data all_jobs min_score
    let matched_jobs := pySortDesc matched_jobs
    let unique_jobs := dedupGo matched_jobs []
    unique_jobs.take max_results

/-! ### Sort lemmas -/

lemma mem_insertDesc {y x : Job} {l : List Job} :
    y ∈ insertDesc x l ↔ y = x ∨ y ∈ l := by
  induction l with
  | nil => simp [insertDesc]
  | cons a rest ih =>
    rw [insertDesc]
    split
    · simp
    · simp only [List.mem_cons, ih]
      tauto

lemma insertDesc_pairwise {x : Job} {l : List Job}
    (h : l.Pairwise (fun a b => sortKey b ≤ sortKey a)) :
    (insertDesc x l).Pairwise (fun a b => sortKey b ≤ sortKey a) := by
  induction l with
  | nil => simp [insertDesc]
  | cons a rest ih =>
    rw [List.pairwise_cons] at h
    rw [insertDesc]
    split
    · rename_i hax
      refine List.Pairwise.cons ?_ (List.Pairwise.cons h.1 h.2)
      intro b hb
      rcases List.mem_cons.mp hb with rfl | hb
      · exact hax
      · exact le_trans (h.1 b hb) hax
    · rename_i hax
      refine List.Pairwise.cons ?_ (ih h.2)
      intro b hb
      rcases mem_insertDesc.mp hb with rfl | hb
      · exact le_of_not_le hax
      · exact h.1 b hb

lemma pySortDesc_pairwise (l : List Job) :
    (pySortDesc l).Pairwise (fun a b => sortKey b ≤ sortKey a) := by
  induction l with
  | nil => exact List.Pairwise.nil
  | cons x rest ih => exact insertDesc_pairwise ih

lemma mem_pySortDesc {y : Job} {l : List Job} : y ∈ pySortDesc l ↔ y ∈ l := by
  induction l with
  | nil => simp [pySortDesc]
  | cons x rest ih =>
    show y ∈ insertDesc x (pySortDesc rest) ↔ _
    rw [mem_insertDesc, ih]
    simp

lemma insertDesc_filter_key (x : Job) (l : List Job) (s : ℚ) :
    (insertDesc x l).filter (fun j => decide (sortKey j = s)) =
      if sortKey x = s then x :: l.filter (fun j => decide (sortKey j = s))
      else l.filter (fun j => decide (sortKey j = s)) := by
  induction l with
  | nil =>
    rw [insertDesc]
    split <;> simp_all [List.filter]
  | cons a rest ih =>
    rw [insertDesc]
    split
    · by_cases hx : sortKey x = s <;> simp [List.filter_cons, hx]
    · rename_i hax
      by_cases hx : sortKey x = s
      · have ha : ¬ (sortKey a = s) := fun h => hax (le_of_eq (h.trans hx.symm))
        simp [List.filter_cons, ih, hx, ha]
      · by_cases ha : sortKey a = s <;> simp [List.filter_cons, ih, hx, ha]

lemma pySortDesc_filter_key (l : List Job) (s : ℚ) :
    (pySortDesc l).filter (fun j => decide (sortKey j = s)) =
      l.filter (fun j => decide (sortKey j = s)) := by
  induction l with
  | nil => rfl
  | cons x rest ih =>
    show (insertDesc x (pySortDesc rest)).filter _ = _
    rw [insertDesc_filter_key, List.filter_cons]
    split <;> rename_i hx <;> simp_all

/-! ### Deduplication lemmas -/

lemma dedupGo_sublist : ∀ (l : List Job) (seen : List (String × String)),
    List.Sublist (dedupGo l seen) l
  | [], _ => List.nil_sublist _
  | job :: rest, seen => by
    rw [dedupGo]
    split
    · exact (dedupGo_sublist rest seen).cons job
    · exact (dedupGo_sublist rest _).cons₂ job

lemma dedupKey_not_mem_seen : ∀ (l : List Job) (seen : List (String × String))
    (j : Job), j ∈ dedupGo l seen → dedupKey j ∉ seen
  | [], _, j, h => absurd h (List.not_mem_nil j)
  | job :: rest, seen, j, h => by
    rw [dedupGo] at h
    split at h
    · exact dedupKey_not_mem_seen rest seen j h
    · rcases List.mem_cons.mp h with rfl | h
      · assumption
      · intro hj
        exact dedupKey_not_mem_seen rest _ j h (List.mem_cons_of_mem _ hj)

lemma dedupGo_pairwise : ∀ (l : List Job) (seen : List (String × String)),
    (dedupGo l seen).Pairwise (fun a b => dedupKey a ≠ dedupKey b)
  | [], _ => List.Pairwise.nil
  | job :: rest, seen => by
    rw [dedupGo]
    split
    · exact dedupGo_pairwise rest seen
    · refine List.Pairwise.cons ?_ (dedupGo_pairwise rest _)
      intro b hb heq
      exact dedupKey_not_mem_seen rest _ b hb (heq ▸ List.mem_cons_self _ _)

lemma dedupGo_filter_key : ∀ (l : List Job) (seen : List (String × String))
    (k : String × String),
    (dedupGo l seen).filter (fun j => decide (dedupKey j = k)) =
      if k ∈ seen then []
      else (l.filter (fun j => decide (dedupKey j = k))).take 1
  | [], seen, k => by
    rw [dedupGo]
    split <;> simp
  | job :: rest, seen, k => by
    rw [dedupGo]
    split
    · rename_i hseen
      rw [dedupGo_filter_key rest seen k, List.filter_cons]
      by_cases hjk : dedupKey job = k
      · have : k ∈ seen := hjk ▸ hseen
        simp [this, hjk]
      · simp [hjk]
    · rename_i hseen
      rw [List.filter_cons]
      by_cases hjk : dedupKey job = k
      · have hks : k ∉ seen := hjk ▸ hseen
        rw [dedupGo_filter_key rest _ k]
        have : k ∈ dedupKey job :: seen := hjk ▸ List.mem_cons_self _ _
        simp [hks, hjk, this]
      · rw [dedupGo_filter_key rest _ k]
        have : (k ∈ dedupKey job :: seen) ↔ (k ∈ seen) := by
          simp [List.mem_cons, Ne.symm hjk, eq_comm]
        rw [if_congr this rfl rfl]
        simp [hjk]

/-- The list right after the stable descending sort of line 582 (the
"post-sort order" the deduplication step walks). -/
def sortedJobs (cv_data : CvData) (all_jobs : List Job) (min_score : ℚ) : List Job :=
  pySortDesc (matchedJobs cv_data all_jobs min_score)

lemma scrape_and_match_eq (cv_data : CvData) (all_jobs : List Job) (min_score : ℚ)
    (max_results : ℕ) :
    scrape_and_match cv_data all_jobs min_score max_results =
      if all_jobs = [] then []
      else (dedupGo (sortedJobs cv_data all_jobs min_score) []).take max_results := rfl

lemma scrape_and_match_sublist_sorted (cv_data : CvData) (all_jobs : List Job)
    (min_score : ℚ) (max_results : ℕ) :
    List.Sublist (scrape_and_match cv_data all_jobs min_score max_results)
      (sortedJobs cv_data all_jobs min_score) := by
  rw [scrape_and_match_eq]
  split
  · exact List.nil_sublist _
  · exact (List.take_sublist _ _).trans (dedupGo_sublist _ _)

/-- C2: the list returned by `scrape_and_match` is sorted in descending order
of the `match_score` field, and entries with equal `match_score` keep their
collection order (`all_jobs` order): restricted to any score value `s`, the
output is an order-preserving subsequence of the filtered-but-unsorted list
`matchedJobs`, which lists the scored jobs in collection order.  Both facts
hold of the final output, i.e. they survive deduplication and truncation. -/
theorem scrape_and_match_sorted_stable (cv_data : CvData) (all_jobs : List Job)
    (min_score : ℚ) (max_results : ℕ) (s : ℚ) :
    (scrape_and_match cv_data all_jobs min_score max_results).Pairwise
      (fun a b => sortKey b ≤ sortKey a) ∧
    List.Sublist
      ((scrape_and_match cv_data all_jobs min_score max_results).filter
        (fun j => decide (sortKey j = s)))
      ((matchedJobs cv_data all_jobs min_score).filter (fun j => decide (sortKey j = s))) := by
  have hsub := scrape_and_match_sublist_sorted cv_data all_jobs min_score max_results
  constructor
  · exact (pySortDesc_pairwise _).sublist hsub
  · have h := hsub.filter (fun j => decide (sortKey j = s))
    rwa [sortedJobs, pySortDesc_filter_key] at h

/-- C3: distinct entries of the output have distinct lower-cased
(title, company) keys, and for every key the output contains (in order) a
subsequence of the *first* entry carrying that key in the post-sort order —
i.e. among duplicates the earliest post-sort (highest-scored, ties by
collection order) instance is the one that can survive. -/
theorem scrape_and_match_dedup_keys (cv_data : CvData) (all_jobs : List Job)
    (min_score : ℚ) (max_results : ℕ) (k : String × String) :
    (scrape_and_match cv_data all_jobs min_score max_results).Pairwise
      (fun a b => dedupKey a ≠ dedupKey b) ∧
    List.Sublist
      ((scrape_and_match cv_data all_jobs min_score max_results).filter
        (fun j => decide (dedupKey j = k)))
      (((sortedJobs cv_data all_jobs min_score).filter
        (fun j => decide (dedupKey j = k))).take 1) := by
  rw [scrape_and_match_eq]
  split
  · exact ⟨List.Pairwise.nil, List.nil_sublist _⟩
  · constructor
    · exact (dedupGo_pairwise _ _).sublist (List.take_sublist _ _)
    · have h := (List.take_sublist max_results
        (dedupGo (sortedJobs cv_data all_jobs min_score) [])).filter
        (fun j => decide (dedupKey j = k))
      rwa [dedupGo_filter_key, if_neg (List.not_mem_nil k)] at h

/-- Every output entry comes from a collected job whose raw score passed the
threshold, decorated with the rounded score. -/
lemma mem_scrape_and_match {cv_data : CvData} {all_jobs : List Job} {min_score : ℚ}
    {max_results : ℕ} {j : Job}
    (h : j ∈ scrape_and_match cv_data all_jobs min_score max_results) :
    ∃ job ∈ all_jobs, min_score ≤ calculate_match_score job cv_data ∧
      j = { job with match_score := some (pyRound2 (calculate_match_score job cv_data)) } := by
  have h1 : j ∈ sortedJobs cv_data all_jobs min_score :=
    (scrape_and_match_sublist_sorted cv_data all_jobs min_score max_results).subset h
  have h2 : j ∈ matchedJobs cv_data all_jobs min_score := mem_pySortDesc.mp h1
  rw [matchedJobs, List.mem_filterMap] at h2
  obtain ⟨job, hjob, heq⟩ := h2
  dsimp only at heq
  split at heq
  · rename_i hge
    exact ⟨job, hjob, hge, (Option.some.injEq _ _ ▸ heq).symm⟩
  · exact absurd heq (by simp)

/-- C10: every entry of the result stores, in `match_score`, the value of
`calculate_match_score` for its source posting rounded to two decimals, while
the `min_score` threshold was checked against the unrounded value. -/
theorem scrape_and_match_rounded_scores (cv_data : CvData) (all_jobs : List Job)
    (min_score : ℚ) (max_results : ℕ) :
    ∀ j ∈ scrape_and_match cv_data all_jobs min_score max_results,
      ∃ job ∈ all_jobs, min_score ≤ calculate_match_score job cv_data ∧
        j.match_score = some (pyRound2 (calculate_match_score job cv_data)) := by
  intro j hj
  obtain ⟨job, hjob, hge, rfl⟩ := mem_scrape_and_match hj
  exact ⟨job, hjob, hge, rfl⟩

/-- C4 (amended): the threshold is applied to the unrounded score, so what the
stored (two-decimal-rounded) `match_score` field guarantees is only
`min_score - 1/200 ≤ match_score`; the field can legitimately sit up to
`0.005` below `min_score`. -/
theorem scrape_and_match_min_score_amended (cv_data : CvData) (all_jobs : List Job)
    (min_score : ℚ) (max_results : ℕ) :
    ∀ j ∈ scrape_and_match cv_data all_jobs min_score max_results,
      min_score - 1 / 200 ≤ j.match_score.getD 0 := by
  intro j hj
  obtain ⟨job, _, hge, rfl⟩ := mem_scrape_and_match hj
  have h := pyRound2_ge (calculate_match_score job cv_data)
  simp only [Option.getD_some]
  linarith

/-! ### Concrete evaluation helpers -/

lemma scrape_and_match_singleton (cv_data : CvData) (job : Job) (min_score : ℚ)
    (max_results : ℕ) (h : min_score ≤ calculate_match_score job cv_data)
    (hmr : max_results ≠ 0) :
    scrape_and_match cv_data [job] min_score max_results =
      [{ job with match_score := some (pyRound2 (calculate_match_score job cv_data)) }] := by
  have hm : matchedJobs cv_data [job] min_score =
      [{ job with match_score := some (pyRound2 (calculate_match_score job cv_data)) }] := by
    simp only [matchedJobs, List.filterMap_cons, List.filterMap_nil]
    rw [if_pos h]
  rw [scrape_and_match_eq, if_neg (by simp), sortedJobs, hm]
  show (dedupGo [_] []).take max_results = _
  rw [dedupGo]
  rw [if_neg (List.not_mem_nil _)]
  cases max_results with
  | zero => exact absurd rfl hmr
  | succ n => simp [dedupGo]

/-- The profile of the C4 counterexample: three technical skills, one of which
will match only through a single word. -/
def cvQuarter : CvData := { skills := some { technical := some ["abcd x", "q", "r"] } }

/-- The posting of the C4 counterexample. -/
def jobQuarter : Job := { title := "t abcd" }

lemma score_cvQuarter : calculate_match_score jobQuarter cvQuarter = 95 / 6 := by
  show min ((10:ℚ) + 0 + ((0 + 1 / 2 + 0 + 0) / ((3:ℕ):ℚ)) * 35 + 0 + 0) 100 = 95 / 6
  rw [min_eq_left (by norm_num)]
  norm_num

lemma pyRound2_score_cvQuarter : pyRound2 (95 / 6) = 1583 / 100 := by
  have h1 : (95 / 6 : ℚ) * 100 = 4750 / 3 := by norm_num
  have h2 : ⌊(4750 / 3 : ℚ)⌋ = 1583 := by norm_num [Int.floor_eq_iff]
  rw [pyRound2, pyRoundInt, h1, h2]
  rw [if_neg (by norm_num)]
  rw [round_eq]
  norm_num [Int.floor_eq_iff]

/-- C4 (counterexample): with `min_score = 15.831`, the single collected
posting passes the filter with raw score `95/6 = 15.8333…`, but the stored
`match_score` is the rounded `15.83 < 15.831`, so an entry of the result has
`match_score` strictly below `min_score`. -/
theorem scrape_and_match_min_score_cex :
    (scrape_and_match cvQuarter [jobQuarter] (15831 / 1000) 50).map
      (fun j => j.match_score.getD 0) = [1583 / 100] ∧
    (1583 / 100 : ℚ) < 15831 / 1000 := by
  constructor
  · rw [scrape_and_match_singleton cvQuarter jobQuarter (15831 / 1000) 50
      (by rw [score_cvQuarter]; norm_num) (by norm_num)]
    rw [score_cvQuarter, pyRound2_score_cvQuarter]
    simp
  · norm_num

/-- Profile and posting used by the positive witnesses. -/
def cvPlain : CvData := {}

/-- A posting whose only signal is a non-empty title. -/
def jobPlain : Job := { title := "Dev" }

lemma score_jobPlain : calculate_match_score jobPlain cvPlain = 10 := by
  show min ((10:ℚ) + 0 + 0 + 0 + 0) 100 = 10
  rw [min_eq_left (by norm_num)]
  norm_num

lemma pyRound2_ten : pyRound2 10 = 10 := by
  have h1 : (10 : ℚ) * 100 = 1000 := by norm_num
  have h2 : ⌊(1000 : ℚ)⌋ = 1000 := by norm_num [Int.floor_eq_iff]
  rw [pyRound2, pyRoundInt, h1, h2]
  rw [if_neg (by norm_num)]
  rw [round_eq]
  norm_num [Int.floor_eq_iff]

lemma jobPlain_mem :
    ({ title := "Dev", match_score := some 10 } : Job) ∈
      scrape_and_match cvPlain [jobPlain] 5 50 := by
  rw [scrape_and_match_singleton cvPlain jobPlain 5 50 (by rw [score_jobPlain]; norm_num)
    (by norm_num)]
  rw [score_jobPlain, pyRound2_ten]
  exact List.mem_singleton.mpr rfl

/-- Witness for C10 at a concrete run. -/
theorem scrape_and_match_rounded_scores_witness :
    ∃ job ∈ [jobPlain], (5:ℚ) ≤ calculate_match_score job cvPlain ∧
      ({ title := "Dev", match_score := some 10 } : Job).match_score =
        some (pyRound2 (calculate_match_score job cvPlain)) :=
  scrape_and_match_rounded_scores cvPlain [jobPlain] 5 50 _ jobPlain_mem

/-- Witness for the amended C4 at a concrete run. -/
theorem scrape_and_match_min_score_amended_witness :
    (5 : ℚ) - 1 / 200 ≤ ({ title := "Dev", match_score := some 10 } : Job).match_score.getD 0 :=
  scrape_and_match_min_score_amended cvPlain [jobPlain] 5 50 _ jobPlain_mem

/-! ## C7: `build_search_term` -/

/-- C7 (amended): `build_search_term` returns the title when it is non-empty
and at most 4 words; otherwise, when the first domain is a non-empty string,
the *first word* of that first domain (no result at all — Python
`IndexError` — if that domain is whitespace-only); otherwise the first skill
when skills are non-empty; otherwise the default term. -/
theorem build_search_term_cases (k : Keywords) :
    (k.title ≠ "" → (pySplit k.title).length ≤ 4 → build_search_term k = some k.title) ∧
    (¬(k.title ≠ "" ∧ (pySplit k.title).length ≤ 4) → k.domains.headD "" ≠ "" →
      build_search_term k = (pySplit (k.domains.headD "")).head?) ∧
    (¬(k.title ≠ "" ∧ (pySplit k.title).length ≤ 4) → k.domains.headD "" = "" →
      k.skills ≠ [] → build_search_term k = some (k.skills.headD "")) ∧
    (¬(k.title ≠ "" ∧ (pySplit k.title).length ≤ 4) → k.domains.headD "" = "" →
      k.skills = [] → build_search_term k = some "informatique") := by
  have hb1 : ((k.title != "") && decide ((pySplit k.title).length ≤ 4)) = true ↔
      (k.title ≠ "" ∧ (pySplit k.title).length ≤ 4) := by
    simp [bne_iff_ne]
  refine ⟨?_, ?_, ?_, ?_⟩
  · intro h1 h2
    rw [build_search_term, if_pos (hb1.mpr ⟨h1, h2⟩)]
  · intro hn hd
    have hne : k.domains ≠ [] := by
      intro h
      rw [h] at hd
      exact hd rfl
    have hc2 : ((k.domains != []) && (k.domains.headD "" != "")) = true := by
      rw [Bool.and_eq_true, bne_iff_ne, bne_iff_ne]
      exact ⟨hne, hd⟩
    rw [build_search_term, if_neg (fun hb => hn (hb1.mp hb)), if_pos hc2]
    dsimp only
    rw [if_pos (bne_iff_ne.mpr hd)]
  · intro hn hd hs
    have hc2 : ¬ (((k.domains != []) && (k.domains.headD "" != "")) = true) := by
      rw [Bool.and_eq_true, bne_iff_ne, bne_iff_ne]
      rintro ⟨-, h⟩
      exact h hd
    rw [build_search_term, if_neg (fun hb => hn (hb1.mp hb)), if_neg hc2,
      if_pos (bne_iff_ne.mpr hs)]
  · intro hn hd hs
    have hc2 : ¬ (((k.domains != []) && (k.domains.headD "" != "")) = true) := by
      rw [Bool.and_eq_true, bne_iff_ne, bne_iff_ne]
      rintro ⟨-, h⟩
      exact h hd
    have hc3 : ¬ ((k.skills != []) = true) := by
      rw [bne_iff_ne]
      exact fun h => h hs
    rw [build_search_term, if_neg (fun hb => hn (hb1.mp hb)), if_neg hc2, if_neg hc3]

/-- The C7 counterexample profile: no usable title, one two-word domain. -/
def cvDomainOnly : CvData := { job_search_intent := some { domains := some ["machine learning"] } }

/-- C7 (counterexample): with domains `["machine learning"]` the code returns
`"machine"` — the first *word* of the first domain — not the first domain. -/
theorem build_search_term_first_domain_cex :
    (extract_search_keywords cvDomainOnly).domains = ["machine learning"] ∧
    build_search_term (extract_search_keywords cvDomainOnly) = some "machine" ∧
    ("machine" : String) ≠ "machine learning" :=
  ⟨rfl, rfl, by decide⟩

/-- Concrete keyword dictionaries exercising each branch. -/
def kwTitle : Keywords := { title := "Data Engineer" }

def kwDomain : Keywords := { domains := ["machine learning"] }

def kwSkill : Keywords := { skills := ["python"] }

def kwEmpty : Keywords := {}

/-- Witness for the amended C7: all four branches at concrete inputs. -/
theorem build_search_term_cases_witness :
    build_search_term kwTitle = some "Data Engineer" ∧
    build_search_term kwDomain = some "machine" ∧
    build_search_term kwSkill = some "python" ∧
    build_search_term kwEmpty = some "informatique" :=
  ⟨(build_search_term_cases kwTitle).1 (by decide) (by decide),
   ((build_search_term_cases kwDomain).2.1 (by decide) (by decide)).trans (by decide),
   (build_search_term_cases kwSkill).2.2.1 (by decide) (by decide) (by decide),
   (build_search_term_cases kwEmpty).2.2.2 (by decide) (by decide) (by decide)⟩

/-! ## C8: empty profile parts contribute nothing -/

lemma presenceSignal_le (job : Job) : presenceSignal job ≤ 10 := by
  rw [presenceSignal]; split <;> norm_num

lemma locationSignal_le (job : Job) : locationSignal job ≤ 15 := by
  rw [locationSignal]; split <;> norm_num

/-- C8: each signal whose inputs are missing or empty contributes exactly 0,
independently of the other profile parts — missing/empty domains zero the
domain signal, missing/empty technical skills zero the skill signal, a
missing/empty title zeroes the title signal, and a posting with an empty
location that is not remote gets 0 from the location signal.  The score is a
well-defined total value throughout (no division by zero: every quotient sits
behind its non-empty guard), and when domains, skills and title are all
missing/empty it collapses to just the presence and location signals. -/
theorem empty_profile_signals (job : Job) (cv_data : CvData) :
    ((∀ intent, cv_data.job_search_intent = some intent →
        intent.domains = none ∨ intent.domains = some []) →
      domainSignal job cv_data = 0) ∧
    ((∀ sd, cv_data.skills = some sd →
        sd.technical = none ∨ sd.technical = some []) →
      skillSignal job cv_data = 0) ∧
    ((cv_data.title = none ∨ cv_data.title = some "") →
      titleSignal job cv_data = 0) ∧
    (job.location = "" → job.is_remote = false → locationSignal job = 0) ∧
    ((∀ intent, cv_data.job_search_intent = some intent →
        intent.domains = none ∨ intent.domains = some []) →
      (∀ sd, cv_data.skills = some sd →
        sd.technical = none ∨ sd.technical = some []) →
      (cv_data.title = none ∨ cv_data.title = some "") →
      calculate_match_score job cv_data = presenceSignal job + locationSignal job) := by
  have hd0 : (∀ intent, cv_data.job_search_intent = some intent →
      intent.domains = none ∨ intent.domains = some []) → domainSignal job cv_data = 0 := by
    intro hd
    rw [domainSignal]
    cases hjsi : cv_data.job_search_intent with
    | none => rfl
    | some intent =>
      dsimp only
      rcases hd intent hjsi with h | h <;> (rw [h]; try rfl)
  have hs0 : (∀ sd, cv_data.skills = some sd →
      sd.technical = none ∨ sd.technical = some []) → skillSignal job cv_data = 0 := by
    intro hs
    rw [skillSignal]
    cases hsk : cv_data.skills with
    | none => rfl
    | some sd =>
      dsimp only
      rcases hs sd hsk with h | h <;> (rw [h]; try rfl)
  have ht0 : (cv_data.title = none ∨ cv_data.title = some "") →
      titleSignal job cv_data = 0 := by
    intro ht
    rw [titleSignal]
    rcases ht with h | h <;> rw [h] <;> rfl
  refine ⟨hd0, hs0, ht0, ?_, ?_⟩
  · intro hloc hrem
    rw [locationSignal, hloc, hrem]
    rfl
  · intro hd hs ht
    rw [calculate_match_score, hd0 hd, hs0 hs, ht0 ht]
    have hsum : presenceSignal job + 0 + 0 + locationSignal job + 0 =
        presenceSignal job + locationSignal job := by ring
    rw [hsum, min_eq_left (by linarith [presenceSignal_le job, locationSignal_le job])]

/-- Witness for C8: every conjunct discharged at the all-defaults profile and
the all-defaults posting. -/
theorem empty_profile_signals_witness :
    domainSignal jobPlain cvPlain = 0 ∧ skillSignal jobPlain cvPlain = 0 ∧
    titleSignal jobPlain cvPlain = 0 ∧ locationSignal jobPlain = 0 ∧
    calculate_match_score jobPlain cvPlain = presenceSignal jobPlain + locationSignal jobPlain :=
  ⟨(empty_profile_signals jobPlain cvPlain).1 (fun _ h => Option.noConfusion h),
   (empty_profile_signals jobPlain cvPlain).2.1 (fun _ h => Option.noConfusion h),
   (empty_profile_signals jobPlain cvPlain).2.2.1 (Or.inl rfl),
   (empty_profile_signals jobPlain cvPlain).2.2.2.1 rfl rfl,
   (empty_profile_signals jobPlain cvPlain).2.2.2.2 (fun _ h => Option.noConfusion h)
     (fun _ h => Option.noConfusion h) (Or.inl rfl)⟩

/-! ## C9: the skill-overlap formula -/

/-- The per-skill points exactly as the claim words them: 1 for a whole-phrase
substring match of the lower-cased skill in the lower-cased title+description
text, else 1/2 when any word of the skill longer than 3 characters occurs in
that text, else 0. -/
def specSkillPoints (text : String) (skill : String) : ℚ :=
  if pyIn (pyLower skill) text then 1
  else if (pySplit (pyLower skill)).any
      (fun word => decide (3 < word.length) && pyIn word text) then 1 / 2
  else 0

lemma skillPoints_eq_spec (text : String) :
    skillPoints text = specSkillPoints text := funext fun _ => rfl

lemma foldl_add_skillPoints (text : String) (l : List String) (acc : ℚ) :
    l.foldl (fun acc skill => acc + skillPoints text skill) acc =
      acc + (l.map (skillPoints text)).sum := by
  induction l generalizing acc with
  | nil => simp
  | cons s rest ih =>
    rw [List.foldl_cons, ih, List.map_cons, List.sum_cons]
    ring

/-- C9: for a profile with non-empty technical skills, the skill-overlap
contribution inside `calculate_match_score` is the claim's formula: the sum of
per-skill points over the first 20 technical skills, divided by the number of
skills considered, times 35. -/
theorem skill_overlap_formula (job : Job) (cv_data : CvData) (sd : SkillsDict)
    (technical : List String) (hsk : cv_data.skills = some sd)
    (ht : sd.technical = some technical) (hne : technical ≠ []) :
    skillSignal job cv_data =
      (((technical.take 20).map (specSkillPoints (jobText job))).sum /
        (((technical.take 20).length : ℕ) : ℚ)) * 35 ∧
    calculate_match_score job cv_data =
      min (presenceSignal job + domainSignal job cv_data + skillSignal job cv_data +
        locationSignal job + titleSignal job cv_data) 100 := by
  refine ⟨?_, rfl⟩
  rw [skillSignal, hsk]
  dsimp only
  rw [ht]
  dsimp only
  have htake : technical.take 20 ≠ [] := by
    rw [Ne, List.take_eq_nil_iff]
    push_neg
    exact ⟨by norm_num, hne⟩
  rw [if_pos (bne_iff_ne.mpr htake)]
  rw [foldl_add_skillPoints, zero_add, skillPoints_eq_spec]

/-- The one-skill profile for the C9 witness. -/
def cvOneSkill : CvData := { skills := some { technical := some ["python"] } }

/-- Witness for C9 at a concrete profile and posting. -/
theorem skill_overlap_formula_witness :
    skillSignal jobPlain cvOneSkill =
      (((["python"].take 20).map (specSkillPoints (jobText jobPlain))).sum /
        (((["python"].take 20).length : ℕ) : ℚ)) * 35 ∧
    calculate_match_score jobPlain cvOneSkill =
      min (presenceSignal jobPlain + domainSignal jobPlain cvOneSkill +
        skillSignal jobPlain cvOneSkill + locationSignal jobPlain +
        titleSignal jobPlain cvOneSkill) 100 :=
  skill_overlap_formula jobPlain cvOneSkill _ _ rfl rfl (by decide)

/-! ## Collectors

Each HTML parser receives the results of the BeautifulSoup queries its Python
body performs on one job card; the JobSpy adapter receives the DataFrame as a
list of rows with optional columns. -/

/-- An `<a href=...>` element: its text and its `href`. -/
structure ElemLink where
  text : String
  href : String
deriving DecidableEq

/-- Query results `_parse_emploi_tn_job` reads from a card (lines 155-191):
the recruiter-link text, the card's full text, and the first `<p>` text. -/
structure EmploiCard where
  recruiter_link_text : Option String := none
  text_content : String := ""
  first_p_text : Option String := none
deriving DecidableEq

/-- Line 180. -/
def emploiLocations : List String :=
  ["Tunis", "Sfax", "Sousse", "Ariana", "Nabeul", "Monastir", "Lac"]

/-- `UnifiedJobScraper._parse_emploi_tn_job` (lines 155-191).  `title_link`
is `title_elem.find('a', href=True)` — `none` when `title_elem` is `None` or
holds no link, in which case the title stays empty. -/
def _parse_emploi_tn_job (card : EmploiCard) (title_link : Option ElemLink) : Option Job :=
  let job : Job := { location := "Tunisie", site := "Emploitunisie.com" }
  let job := match title_link with
    | none => job
    | some link =>
      let url := link.href
      { job with
          title := link.text
          url := if url.startsWith "http" then url else "https://www.emploitunisie.com" ++ url }
  let job := match card.recruiter_link_text with
    | none => job
    | some c => { job with company := c }
  let job := match emploiLocations.find? (fun loc => pyIn loc card.text_content) with
    | some loc => { job with location := loc }
    | none => job
  let job := match card.first_p_text with
    | none => job
    | some d => { job with description := pyTake d 500 }
  if job.title != "" then some job else none

/-- The first of `card.find(['h2', 'h3', 'h4', 'a'])` for Tanitjobs: its
text, whether the tag is an `<a>`, and its `href` attribute if any. -/
structure TanitTitleElem where
  text : String
  is_a_tag : Bool := false
  href : Option String := none
deriving DecidableEq

/-- Query results `_parse_tanitjobs_job` reads from a card (lines 227-260). -/
structure TanitCard where
  title_elem : Option TanitTitleElem := none
  company_text : Option String := none
  location_text : Option String := none
  first_p_text : Option String := none
deriving DecidableEq

/-- `UnifiedJobScraper._parse_tanitjobs_job` (lines 227-260). -/
def _parse_tanitjobs_job (card : TanitCard) : Option Job :=
  let job : Job := { location := "Tunisie", site := "Tanitjobs" }
  let job := match card.title_elem with
    | none => job
    | some te =>
      let j := { job with title := te.text }
      if te.is_a_tag && (te.href.getD "" != "") then
        let url := te.href.getD ""
        { j with url := if url.startsWith "http" then url else "https://www.tanitjobs.com" ++ url }
      else j
  let job := match card.company_text with
    | none => job
    | some c => { job with company := c }
  let job := match card.location_text with
    | none => job
    | some t => if t != "" then { job with location := pyStrip t } else job
  let job := match card.first_p_text with
    | none => job
    | some d => { job with description := pyTake d 500 }
  if job.title != "" then some job else none

/-- Query results `_parse_keejob_job` reads from a card (lines 294-333):
the company-link text, every text node of the card, and the first `<p>`. -/
structure KeejobCard where
  company_link_text : Option String := none
  texts : List String := []
  first_p_text : Option String := none
deriving DecidableEq

/-- Line 319. -/
def keejobLocations : List String :=
  ["Tunis", "Sfax", "Sousse", "Ariana", "Nabeul", "Monastir", "Ben Arous"]

/-- Lines 320-327: scan the card's text nodes, take the first location
pattern contained in a stripped text node, and stop at the first text node
that yields a location. -/
def keejobScanTexts : List String → String → String
  | [], loc => loc
  | t :: ts, loc =>
    let text := pyStrip t
    let loc := match keejobLocations.find? (fun p => pyIn p text) with
      | some p => p
      | none => loc
    if loc != "Tunisie" then loc else keejobScanTexts ts loc

/-- `UnifiedJobScraper._parse_keejob_job` (lines 294-333). -/
def _parse_keejob_job (card : KeejobCard) (title_link : Option ElemLink) : Option Job :=
  let job : Job := { location := "Tunisie", site := "Keejob" }
  let job := match title_link with
    | none => job
    | some link =>
      let url := link.href
      { job with
          title := link.text
          url := if url.startsWith "http" then url else "https://www.keejob.com" ++ url }
  let job := match card.company_link_text with
    | none => job
    | some c => { job with company := c }
  let job := { job with location := keejobScanTexts card.texts job.location }
  let job := match card.first_p_text with
    | none => job
    | some d => { job with description := pyTake d 500 }
  if job.title != "" then some job else none

/-- One row of the JobSpy DataFrame; `none` models a missing/NA-free column
(`row.get(key, default)` then yields the default). -/
structure JobSpyRow where
  title : Option String := none
  company : Option String := none
  location : Option String := none
  description : Option String := none
  job_url : Option String := none
  date_posted : Option String := none
  is_remote : Option Bool := none
deriving DecidableEq

/-- `UnifiedJobScraper._convert_jobspy_to_dict` (lines 420-435): one posting
per DataFrame row, no validation. -/
def _convert_jobspy_to_dict (jobs_df : List JobSpyRow) (site : String) : List Job :=
  jobs_df.map (fun job =>
    { title := job.title.getD "N/A"
      company := job.company.getD "N/A"
      location := job.location.getD "N/A"
      description := pyTake (job.description.getD "") 5000
      url := job.job_url.getD ""
      site := site
      date_posted := job.date_posted.getD ""
      is_remote := job.is_remote.getD false })

/-- The outcome of one `scrape_jobs(...)` call inside a `try` block: an
exception, or a DataFrame (possibly `None`). -/
abbrev FetchOutcome := Except String (Option (List JobSpyRow))

/-- One `try: jobs = scrape_jobs(...); if jobs is not None and not
jobs.empty: all_jobs.extend(...) except: pass`-shaped block of
`scrape_international_jobs` (lines 352-416). -/
def intlFetchStep (all_jobs : List Job) (result : FetchOutcome) (site : String) : List Job :=
  match result with
  | .error _ => all_jobs
  | .ok none => all_jobs
  | .ok (some df) => if df.isEmpty then all_jobs else all_jobs ++ _convert_jobspy_to_dict df site

/-- `UnifiedJobScraper.scrape_international_jobs` (lines 339-418): the four
guarded sub-market blocks run in sequence over the shared `all_jobs` list. -/
def scrape_international_jobs
    (linkedin indeed_usa indeed_france zip_recruiter : FetchOutcome) : List Job :=
  let all_jobs : List Job := []
  let all_jobs := intlFetchStep all_jobs linkedin "LinkedIn"
  let all_jobs := intlFetchStep all_jobs indeed_usa "Indeed USA"
  let all_jobs := intlFetchStep all_jobs indeed_france "Indeed France"
  intlFetchStep all_jobs zip_recruiter "ZipRecruiter"

lemma intlFetchStep_eq (acc : List Job) (r : FetchOutcome) (site : String) :
    intlFetchStep acc r site = acc ++ intlFetchStep [] r site := by
  rcases r with e | o
  · simp [intlFetchStep]
  · rcases o with _ | df
    · simp [intlFetchStep]
    · by_cases h : df.isEmpty <;> simp [intlFetchStep, h]

/-- C6: the international collection is the concatenation of the four
sub-market contributions, a sub-market whose fetch raised contributes the
empty list, and in particular when the Indeed-USA search fails while the
others succeed the result is exactly the union of the other three — the
failure never aborts the phase (the model is a total function). -/
theorem scrape_international_failure_isolated
    (linkedin indeed_usa indeed_france zip_recruiter : FetchOutcome) (e site : String) :
    scrape_international_jobs linkedin indeed_usa indeed_france zip_recruiter =
      intlFetchStep [] linkedin "LinkedIn" ++ intlFetchStep [] indeed_usa "Indeed USA" ++
      intlFetchStep [] indeed_france "Indeed France" ++
      intlFetchStep [] zip_recruiter "ZipRecruiter" ∧
    intlFetchStep [] (Except.error e) site = [] ∧
    scrape_international_jobs linkedin (Except.error e) indeed_france zip_recruiter =
      intlFetchStep [] linkedin "LinkedIn" ++ intlFetchStep [] indeed_france "Indeed France" ++
      intlFetchStep [] zip_recruiter "ZipRecruiter" := by
  have hsplit : ∀ a b c d : FetchOutcome,
      scrape_international_jobs a b c d =
        intlFetchStep [] a "LinkedIn" ++ intlFetchStep [] b "Indeed USA" ++
        intlFetchStep [] c "Indeed France" ++ intlFetchStep [] d "ZipRecruiter" := by
    intro a b c d
    show intlFetchStep (intlFetchStep (intlFetchStep (intlFetchStep [] a "LinkedIn")
      b "Indeed USA") c "Indeed France") d "ZipRecruiter" = _
    rw [intlFetchStep_eq (intlFetchStep (intlFetchStep (intlFetchStep [] a "LinkedIn")
        b "Indeed USA") c "Indeed France") d "ZipRecruiter",
      intlFetchStep_eq (intlFetchStep (intlFetchStep [] a "LinkedIn") b "Indeed USA")
        c "Indeed France",
      intlFetchStep_eq (intlFetchStep [] a "LinkedIn") b "Indeed USA"]
  refine ⟨hsplit linkedin indeed_usa indeed_france zip_recruiter, rfl, ?_⟩
  rw [hsplit linkedin (Except.error e) indeed_france zip_recruiter]
  have he : intlFetchStep [] (Except.error e) "Indeed USA" = [] := rfl
  rw [he]
  simp

/-- Postings passing a `return job if job['title'] else None` guard have a
non-empty title. -/
lemma titleGuard_all (j : Job) :
    (if j.title != "" then some j else none).all (fun x => x.title != "") = true := by
  split
  · rename_i h
    simpa [Option.all] using h
  · rfl

/-- C5 (amended): the three Tunisia parsers only ever return postings with a
non-empty title (an empty extracted title yields `none`: the item is dropped,
no error), while the JobSpy converter performs no title validation at all —
it returns exactly one posting per input row. -/
theorem collectors_title_invariant :
    (∀ (card : EmploiCard) (title_link : Option ElemLink),
      (_parse_emploi_tn_job card title_link).all (fun j => j.title != "") = true) ∧
    (∀ (card : TanitCard),
      (_parse_tanitjobs_job card).all (fun j => j.title != "") = true) ∧
    (∀ (card : KeejobCard) (title_link : Option ElemLink),
      (_parse_keejob_job card title_link).all (fun j => j.title != "") = true) ∧
    (∀ (rows : List JobSpyRow) (site : String),
      (_convert_jobspy_to_dict rows site).length = rows.length) := by
  refine ⟨?_, ?_, ?_, ?_⟩
  · intro card title_link
    exact titleGuard_all _
  · intro card
    exact titleGuard_all _
  · intro card title_link
    exact titleGuard_all _
  · intro rows site
    rw [_convert_jobspy_to_dict, List.length_map]

/-- The C5 counterexample row: the DataFrame delivers an empty title. -/
def emptyTitleRow : JobSpyRow := { title := some "" }

/-- C5 (counterexample): a JobSpy row whose extracted title is the empty
string still produces a posting — with an empty title — rather than being
dropped, so the claimed invariant fails for the JobSpy converter. -/
theorem jobspy_empty_title_cex :
    ((_convert_jobspy_to_dict [emptyTitleRow] "LinkedIn").map (fun j => j.title)) = [""] ∧
    _convert_jobspy_to_dict [emptyTitleRow] "LinkedIn" ≠ [] :=
  ⟨rfl, by decide⟩

end JobyMatch

